import Mathlib

/-!
Verification development for the physio-gamer motion-driven game engine.

The definitions below are a shallow embedding of the TypeScript sources:
`utils/math.ts` (the angle and normalization primitives) and
`components/GameCanvas.tsx` (signal interpretation, intensity smoothing with
hysteresis, avatar physics, obstacle spawning/scrolling/scoring, collision
handling, and the start-of-run reset).  JavaScript numbers are modelled as
exact rationals (`ℚ`) for the game-state arithmetic and as reals (`ℝ`) where
the trigonometric angle primitive is involved; machine words and overflow play
no role in the source.  Landmark arrays are modelled as total functions from
the landmark index.
-/

namespace PhysioGamer

/-- A 2-D pose landmark with a visibility confidence, from `types.ts`
(`Point`). -/
structure Point where
  x : ℝ
  y : ℝ
  visibility : ℝ

/-- Model of the JavaScript builtin `Math.atan2` (two-argument arctangent),
used by `calculateAngle`.  The sign-of-zero distinctions of IEEE floats are
immaterial here and are collapsed. -/
noncomputable def atan2 (y x : ℝ) : ℝ :=
  if 0 < x then Real.arctan (y / x)
  else if x < 0 ∧ 0 ≤ y then Real.arctan (y / x) + Real.pi
  else if x < 0 ∧ y < 0 then Real.arctan (y / x) - Real.pi
  else if x = 0 ∧ 0 < y then Real.pi / 2
  else if x = 0 ∧ y < 0 then -(Real.pi / 2)
  else 0

/-- The joint-angle primitive from `utils/math.ts`: absolute angle in degrees
at vertex `b` between rays `b → a` and `b → c`, reflected into `[0, 180]`. -/
noncomputable def calculateAngle (a b c : Point) : ℝ :=
  let radians := atan2 (c.y - b.y) (c.x - b.x) - atan2 (a.y - b.y) (a.x - b.x)
  let angle := |radians * 180.0 / Real.pi|
  if angle > 180.0 then 360 - angle else angle

/-- The normalization primitive from `utils/math.ts`: rescale `value` from the
range `[vmin, vmax]` to `[0,1]`, clamp, and flip when `inverse` is set.
Stated generically so the same definition serves the rational game state and
the real-valued angle pipeline. -/
def normalize {α : Type} [LinearOrderedField α]
    (value vmin vmax : α) (inverse : Bool) : α :=
  let normalized := (value - vmin) / (vmax - vmin)
  let clamped := max 0 (min 1 normalized)
  if inverse then 1 - clamped else clamped

/-- Exercise modes from `types.ts`. -/
inductive GameMode where
  | SQUAT
  | ARM_RAISE
  | LUNGE
deriving DecidableEq

/-- Game states from `types.ts`. -/
inductive GState where
  | MENU
  | TUTORIAL
  | PLAYING
  | GAME_OVER
deriving DecidableEq

/-- Difficulty levels from `types.ts`. -/
inductive Difficulty where
  | EASY
  | MEDIUM
  | HARD
deriving DecidableEq

/-- The per-mode intensity mapping of `onPoseResults` in `GameCanvas.tsx`
(the `results.poseLandmarks` branch), computing the raw intensity from the
landmark positions.  Landmark indices are MediaPipe's: 0 nose, 15/16 wrists,
23/24 hips, 25/26 knees, 27/28 ankles. -/
noncomputable def poseIntensity (mode : GameMode) (landmarks : ℕ → Point) : ℝ :=
  match mode with
  | GameMode.SQUAT =>
      let angle := calculateAngle (landmarks 23) (landmarks 25) (landmarks 27)
      normalize angle 160 70 true
  | GameMode.ARM_RAISE =>
      let nose := landmarks 0
      let leftWrist := landmarks 15
      let rightWrist := landmarks 16
      let leftHigh := leftWrist.y < nose.y
      let rightHigh := rightWrist.y < nose.y
      if leftHigh ∧ rightHigh then 1.0
      else if leftHigh ∨ rightHigh then 0.5
      else 0.0
  | GameMode.LUNGE =>
      let lKneeAngle := calculateAngle (landmarks 23) (landmarks 25) (landmarks 27)
      let rKneeAngle := calculateAngle (landmarks 24) (landmarks 26) (landmarks 28)
      let lIntensity := normalize lKneeAngle 160 90 true
      let rIntensity := normalize rKneeAngle 160 90 true
      max lIntensity rIntensity

/-- The raw intensity produced by `onPoseResults` for one frame: `0` when no
landmarks were detected (`currentIntensity` keeps its initial value `0`),
otherwise the per-mode mapping. -/
noncomputable def rawIntensity (mode : GameMode) (pose : Option (ℕ → Point)) : ℝ :=
  match pose with
  | none => 0
  | some landmarks => poseIntensity mode landmarks

/-- Replace the visibility confidences of a landmark set, keeping every
position; used to express that the interpreter never reads visibility. -/
def withVisibility (landmarks : ℕ → Point) (v : ℕ → ℝ) : ℕ → Point :=
  fun i => { landmarks i with visibility := v i }

/-- Concrete squat pose whose hip-knee-ankle angle is exactly 90°:
hip at (0,1), knee at (0,0), ankle at (1,0); all landmarks fully visible. -/
noncomputable def squatPose90 : ℕ → Point :=
  fun i =>
    if i = 23 then ⟨0, 1, 1⟩
    else if i = 25 then ⟨0, 0, 1⟩
    else ⟨1, 0, 1⟩

/-- Concrete squat pose whose required landmarks all have visibility 0:
hip at (1,0), knee at (0,0), ankle at (-1,0) (a fully straight leg,
hip-knee-ankle angle 180°). -/
noncomputable def squatPoseLowVis : ℕ → Point :=
  fun i =>
    if i = 23 then ⟨1, 0, 0⟩
    else if i = 25 then ⟨0, 0, 0⟩
    else ⟨-1, 0, 0⟩

/-- The exponential smoothing step from `onPoseResults`
(`intensityRef.current = intensityRef.current * 0.8 + currentIntensity * 0.2`). -/
def smooth (prev raw : ℚ) : ℚ :=
  prev * 0.8 + raw * 0.2

/-- One step of the exertion hysteresis from `onPoseResults`: given the
latch (`wasJumpingRef`) and the smoothed intensity, return the new latch and
whether the jump cue fired this frame. -/
def hysStep (wasJumping : Bool) (intensity : ℚ) : Bool × Bool :=
  if intensity > 0.6 ∧ wasJumping = false then (true, true)
  else if intensity < 0.4 then (false, false)
  else (wasJumping, false)

/-- Latch value entering frame `n`, for a stream `i` of smoothed intensities
starting from latch `l0`. -/
def latchAt (i : ℕ → ℚ) (l0 : Bool) : ℕ → Bool
  | 0 => l0
  | n + 1 => (hysStep (latchAt i l0 n) (i n)).1

/-- Whether the exertion event (jump cue) fires on frame `n`. -/
def firedAt (i : ℕ → ℚ) (l0 : Bool) (n : ℕ) : Bool :=
  (hysStep (latchAt i l0 n) (i n)).2

/-- Avatar physics state: vertical position (`playerY`) and velocity
(`playerVelocity`). -/
structure AvatarState where
  y : ℚ
  v : ℚ
deriving DecidableEq

/-- One frame of avatar physics from the `PLAYING` branch of `updateGame`:
lift, gravity, velocity clamp to `[-15, 15]`, integration, then the two
boundary checks against `CANVAS_HEIGHT - 60 = 660` and `0`. -/
def physicsStep (gravity liftMultiplier intensity : ℚ) (s : AvatarState) : AvatarState :=
  let lift := intensity * liftMultiplier
  let v1 := s.v - lift
  let v2 := v1 + gravity
  let v3 := max (-15) (min 15 v2)
  let y1 := s.y + v3
  let s1 : AvatarState := if y1 > 720 - 60 then ⟨720 - 60, 0⟩ else ⟨y1, v3⟩
  if s1.y < 0 then ⟨0, 0⟩ else s1

/-- The avatar states reached after each update of a run, given the per-frame
smoothed intensities. -/
def physicsTrace (gravity liftMultiplier : ℚ) (s : AvatarState) :
    List ℚ → List AvatarState
  | [] => []
  | i :: is =>
      let s' := physicsStep gravity liftMultiplier i s
      s' :: physicsTrace gravity liftMultiplier s' is

/-- Obstacle archetype tags from `GameCanvas.tsx` (`'block' | 'floating'`). -/
inductive ObstacleType where
  | block
  | floating
deriving DecidableEq

/-- An obstacle rectangle from `GameCanvas.tsx`. -/
structure Obstacle where
  x : ℚ
  y : ℚ
  w : ℚ
  h : ℚ
  type : ObstacleType
  color : String
deriving DecidableEq

/-- The avatar/obstacle overlap test from the collision check in
`updateGame` (avatar hitbox of half-size 30 centered at x = 200 and the
current `playerY`). -/
def collides (playerY : ℚ) (obs : Obstacle) : Bool :=
  decide (200 + 30 > obs.x) && decide (200 - 30 < obs.x + obs.w) &&
  decide (playerY + 30 > obs.y) && decide (playerY - 30 < obs.y + obs.h)

/-- Result of one pass of the obstacle update loop in `updateGame`:
the surviving obstacles (in order), how many scrolled fully past the left
edge (each increments the score by 1), and whether any obstacle overlapped
the avatar hitbox. -/
structure ObsPass where
  kept : List Obstacle
  removedCount : ℕ
  collided : Bool
deriving DecidableEq

/-- One frame of the obstacle update loop from `updateGame`: every obstacle's
x decreases by the scroll speed, collision against the avatar hitbox is
tested, and obstacles with `x + w < 0` are removed.  The source iterates the
array backwards for in-place splicing; element-wise effects are identical. -/
def obsPass (speed playerY : ℚ) : List Obstacle → ObsPass
  | [] => ⟨[], 0, false⟩
  | obs :: rest =>
      let moved : Obstacle := { obs with x := obs.x - speed }
      let hit := collides playerY moved
      let r := obsPass speed playerY rest
      if moved.x + moved.w < 0 then ⟨r.kept, r.removedCount + 1, hit || r.collided⟩
      else ⟨moved :: r.kept, r.removedCount, hit || r.collided⟩

/-- One frame of obstacle scrolling and scoring at a fixed scroll speed
(the obstacle loop of `updateGame`, projected onto the obstacle list and the
score; collisions do not affect scrolling or scoring within a frame). -/
def scrollStep (speed playerY : ℚ) (st : List Obstacle × ℕ) : List Obstacle × ℕ :=
  let p := obsPass speed playerY st.1
  (p.kept, st.2 + p.removedCount)

/-- Iterated obstacle scrolling: the obstacle list and score after `n` frames
at a constant scroll speed. -/
def scrollRun (speed playerY : ℚ) (st : List Obstacle × ℕ) : ℕ → List Obstacle × ℕ
  | 0 => st
  | n + 1 => scrollStep speed playerY (scrollRun speed playerY st n)

/-- The four named sound cues of `playSound`. -/
inductive Cue where
  | start
  | jump
  | score
  | gameover
deriving DecidableEq

/-- The milestone cues emitted while the score climbs from `sc0` by
`removed` successive increments: one `score` cue for every intermediate
value that is a positive multiple of 10 (`newScore % 10 === 0`). -/
def milestoneCues (sc0 removed : ℕ) : List Cue :=
  (List.range removed).filterMap
    (fun j => if (sc0 + j + 1) % 10 == 0 then some Cue.score else none)

/-- Number of milestone bursts triggered this frame. -/
def milestoneCount (sc0 removed : ℕ) : ℕ :=
  (milestoneCues sc0 removed).length

/-- The sound cues requested by the obstacle update loop in one frame:
a `gameover` cue when a collision occurred (the source emits one per
colliding obstacle; duplicates are collapsed here) and the milestone `score`
cues. -/
def frameCues (collided : Bool) (sc0 removed : ℕ) : List Cue :=
  (if collided then [Cue.gameover] else []) ++ milestoneCues sc0 removed

/-- Gravity constant per difficulty, from the `switch (difficulty)` in
`updateGame`. -/
def gravity : Difficulty → ℚ
  | Difficulty.EASY => 0.12
  | Difficulty.MEDIUM => 0.5
  | Difficulty.HARD => 1.1

/-- Lift multiplier per difficulty, from the `switch (difficulty)` in
`updateGame`. -/
def liftMultiplier : Difficulty → ℚ
  | Difficulty.EASY => 4.0
  | Difficulty.MEDIUM => 1.8
  | Difficulty.HARD => 1.1

/-- Spawn period in frames (`spawnRate`) per difficulty, from the
`switch (difficulty)` in `updateGame`. -/
def spawnRate : Difficulty → ℕ
  | Difficulty.EASY => 300
  | Difficulty.MEDIUM => 100
  | Difficulty.HARD => 40

/-- Scroll-speed increment applied at each spawn event (`speedIncrement`),
from the `switch (difficulty)` in `updateGame`. -/
def speedIncrement : Difficulty → ℚ
  | Difficulty.EASY => 0.002
  | Difficulty.MEDIUM => 0.05
  | Difficulty.HARD => 0.15

/-- Gate gap size per difficulty, from the spawn logic in `updateGame`. -/
def gapSize : Difficulty → ℚ
  | Difficulty.EASY => 300
  | Difficulty.MEDIUM => 180
  | Difficulty.HARD => 150

/-- Initial scroll speed set by `startGame` per difficulty. -/
def initialSpeed : Difficulty → ℚ
  | Difficulty.EASY => 3
  | Difficulty.MEDIUM => 6
  | Difficulty.HARD => 10

/-- The spawn-event condition from `updateGame`
(`frameRef.current % spawnRate === 0`). -/
def spawnFires (d : Difficulty) (frame : ℕ) : Bool :=
  frame % spawnRate d == 0

/-- The obstacles pushed by one spawn event in `updateGame`, as a function of
the captured score, the difficulty, and the uniform random draws consumed by
the branch taken: `rand` selects the archetype; `r1` is the first
branch-local draw (gate gap position, crate height, or pillar side); `r2` is
the pillar-height draw. -/
def spawnObstacles (score : ℕ) (d : Difficulty) (rand r1 r2 : ℚ) : List Obstacle :=
  if 10 ≤ score ∧ rand > 0.6 then
    let g := gapSize d
    let gapY := r1 * (720 - g - 100) + 50
    [⟨1280, 0, 60, gapY, ObstacleType.block, "#7209B7"⟩,
     ⟨1280, gapY + g, 60, 720 - (gapY + g), ObstacleType.block, "#7209B7"⟩]
  else if 10 ≤ score ∧ rand > 0.4 then
    [⟨1280, r1 * (720 - 200) + 100, 80, 80, ObstacleType.floating, "#FF9F1C"⟩]
  else
    let isTop := r1 > 0.5
    let height := r2 * 200 + 100
    [⟨1280, if isTop then 0 else 720 - height, 60, height,
      ObstacleType.block, "#F72585"⟩]

/-- Sparkle shape tags (`'circle' | 'star'`). -/
inductive SparkleType where
  | circle
  | star
deriving DecidableEq

/-- A decorative sparkle particle from `GameCanvas.tsx`. -/
structure Sparkle where
  x : ℚ
  y : ℚ
  vx : ℚ
  vy : ℚ
  size : ℚ
  color : String
  alpha : ℚ
  decay : ℚ
  type : SparkleType
deriving DecidableEq

/-- One frame of sparkle integration from `updateGame`: ballistic motion,
constant downward acceleration 0.2, alpha decay. -/
def sparkleStep (s : Sparkle) : Sparkle :=
  { s with
    x := s.x + s.vx
    y := s.y + s.vy
    vy := s.vy + 0.2
    alpha := s.alpha - s.decay }

/-- The sparkle pass of `updateGame`: integrate every particle and drop those
whose alpha has reached `≤ 0`. -/
def updateSparkles (ps : List Sparkle) : List Sparkle :=
  (ps.map sparkleStep).filter (fun p => decide (0 < p.alpha))

/-- The engine state mutated by `GameCanvas.tsx` across frames: the React
state (`score`, `highScore`, `gameState`, `difficulty`) and the refs
(`playerY`, `playerVelocity`, `obstacles`, `sparklesRef`, `gameSpeed`,
`frameRef`). -/
structure EngineState where
  score : ℕ
  highScore : ℕ
  playerY : ℚ
  playerVelocity : ℚ
  obstacles : List Obstacle
  sparkles : List Sparkle
  gameSpeed : ℚ
  frame : ℕ
  gameState : GState
  difficulty : Difficulty
deriving DecidableEq

/-- Avatar state after the physics section of a `PLAYING` frame. -/
def avatarAfter (intensity : ℚ) (s : EngineState) : AvatarState :=
  physicsStep (gravity s.difficulty) (liftMultiplier s.difficulty) intensity
    ⟨s.playerY, s.playerVelocity⟩

/-- Scroll speed after the spawn section of a `PLAYING` frame (incremented
exactly when a spawn event fires). -/
def speedAfterSpawn (s : EngineState) : ℚ :=
  if spawnFires s.difficulty s.frame then s.gameSpeed + speedIncrement s.difficulty
  else s.gameSpeed

/-- Obstacle list after the spawn section of a `PLAYING` frame (the new
obstacles are pushed before the update loop runs). -/
def obstaclesAfterSpawn (rand r1 r2 : ℚ) (s : EngineState) : List Obstacle :=
  if spawnFires s.difficulty s.frame then
    s.obstacles ++ spawnObstacles s.score s.difficulty rand r1 r2
  else s.obstacles

/-- One frame of `updateGame`: when `PLAYING`, run avatar physics, the spawn
logic, and the obstacle loop (collision sets `GAME_OVER` and updates the high
score from the captured score; removals increment the score); in every state,
integrate sparkles and increment the frame counter.  `burst` stands for the
randomized 40-particle burst `createSparkles` would push at each score
milestone. -/
def updateGame (intensity rand r1 r2 : ℚ) (burst : List Sparkle)
    (s : EngineState) : EngineState :=
  if s.gameState = GState.PLAYING then
    let av := avatarAfter intensity s
    let sp := speedAfterSpawn s
    let obs := obstaclesAfterSpawn rand r1 r2 s
    let p := obsPass sp av.y obs
    { s with
      playerY := av.y
      playerVelocity := av.v
      gameSpeed := sp
      obstacles := p.kept
      score := s.score + p.removedCount
      highScore := if p.collided ∧ s.score > s.highScore then s.score else s.highScore
      gameState := if p.collided then GState.GAME_OVER else s.gameState
      sparkles := updateSparkles s.sparkles ++
        (List.replicate (milestoneCount s.score p.removedCount) burst).flatten
      frame := s.frame + 1 }
  else
    { s with
      sparkles := updateSparkles s.sparkles
      frame := s.frame + 1 }

/-- The `startGame` handler of `GameCanvas.tsx`: reset score, avatar, the
obstacle and sparkle collections, re-derive the scroll speed from the
difficulty, and enter `PLAYING`. -/
def startGame (s : EngineState) : EngineState :=
  { s with
    score := 0
    playerY := 720 / 2
    obstacles := []
    sparkles := []
    playerVelocity := 0
    gameSpeed := initialSpeed s.difficulty
    gameState := GState.PLAYING }

/-! ## Helper lemmas -/

/-- Single-step avatar bounds: one physics update always leaves the position
in `[0, 660]` and the velocity in `[-15, 15]`, whatever the previous state. -/
theorem physicsStep_bounds (g l i : ℚ) (s : AvatarState) :
    0 ≤ (physicsStep g l i s).y ∧ (physicsStep g l i s).y ≤ 720 - 60 ∧
    -15 ≤ (physicsStep g l i s).v ∧ (physicsStep g l i s).v ≤ 15 := by
  simp only [physicsStep]
  set v3 := max (-15 : ℚ) (min 15 (s.v - i * l + g)) with hv3
  have hv3l : (-15 : ℚ) ≤ v3 := le_max_left _ _
  have hv3u : v3 ≤ 15 := max_le (by norm_num) (min_le_left _ _)
  by_cases h1 : s.y + v3 > 720 - 60
  · simp only [if_pos h1]
    norm_num
  · simp only [if_neg h1]
    by_cases h2 : s.y + v3 < 0
    · simp only [if_pos h2]
      norm_num
    · simp only [if_neg h2]
      push_neg at h1 h2
      exact ⟨h2, h1, hv3l, hv3u⟩

/-- The exertion event fires exactly on frames whose smoothed intensity
exceeds 0.6 while the latch is down. -/
theorem firedAt_iff (i : ℕ → ℚ) (l0 : Bool) (n : ℕ) :
    firedAt i l0 n = true ↔ (i n > 0.6 ∧ latchAt i l0 n = false) := by
  unfold firedAt hysStep
  split_ifs with h1 h2 <;> simp_all

/-- After an exertion event the latch is up on the next frame. -/
theorem latchAt_succ_of_fired (i : ℕ → ℚ) (l0 : Bool) (n : ℕ)
    (h : firedAt i l0 n = true) : latchAt i l0 (n + 1) = true := by
  unfold firedAt hysStep at h
  unfold latchAt hysStep
  split_ifs at h ⊢
  simp_all

/-- The latch stays up through any frame whose intensity is not below 0.4. -/
theorem latchAt_succ_of_latch (i : ℕ → ℚ) (l0 : Bool) (n : ℕ)
    (h : latchAt i l0 n = true) (hm : ¬ i n < 0.4) :
    latchAt i l0 (n + 1) = true := by
  unfold latchAt hysStep
  rw [h]
  split_ifs with h1 h2 <;> simp_all

/-- Latch persistence: once up, the latch stays up across any stretch of
frames none of which drops below 0.4. -/
theorem latchAt_persist (i : ℕ → ℚ) (l0 : Bool) (a b : ℕ) (hab : a ≤ b)
    (ha : latchAt i l0 a = true)
    (hno : ∀ m, a ≤ m → m < b → ¬ i m < 0.4) :
    latchAt i l0 b = true := by
  induction b, hab using Nat.le_induction with
  | base => exact ha
  | succ b hab ih =>
      exact latchAt_succ_of_latch i l0 b
        (ih (fun m hm1 hm2 => hno m hm1 (hm2.trans (Nat.lt_succ_self b))))
        (hno b hab (Nat.lt_succ_self b))

/-- An obstacle pass in which no moved obstacle has scrolled fully past the
left edge keeps every obstacle (moved) and scores nothing. -/
theorem obsPass_keep (speed py : ℚ) (L : List Obstacle)
    (h : ∀ o ∈ L, ¬ o.x - speed + o.w < 0) :
    (obsPass speed py L).kept = L.map (fun o => { o with x := o.x - speed }) ∧
    (obsPass speed py L).removedCount = 0 := by
  induction L with
  | nil => simp [obsPass]
  | cons o rest ih =>
      have ho := h o (List.mem_cons_self o rest)
      have hrest := ih (fun o' ho' => h o' (List.mem_cons_of_mem o ho'))
      simp only [obsPass, List.map_cons]
      rw [if_neg ho]
      simp [hrest.1, hrest.2]

/-- An obstacle pass in which every moved obstacle has scrolled fully past
the left edge removes them all, scoring one point each. -/
theorem obsPass_removeAll (speed py : ℚ) (L : List Obstacle)
    (h : ∀ o ∈ L, o.x - speed + o.w < 0) :
    (obsPass speed py L).kept = [] ∧
    (obsPass speed py L).removedCount = L.length := by
  induction L with
  | nil => simp [obsPass]
  | cons o rest ih =>
      have ho := h o (List.mem_cons_self o rest)
      have hrest := ih (fun o' ho' => h o' (List.mem_cons_of_mem o ho'))
      simp only [obsPass, List.length_cons]
      rw [if_pos ho]
      simp [hrest.1, hrest.2]

/-- Closed form for scrolling a batch of obstacles that all start at
`x = 1280` with a common width `w` at a constant speed: for the first
`⌊(1280 + w)/speed⌋` frames every obstacle survives at `x = 1280 − n·speed`
and the score is untouched; on the following frame all of them are removed
at once and the score rises by the batch size. -/
theorem scrollRun_uniform (speed py w : ℚ) (L : List Obstacle) (sc0 : ℕ)
    (hs : 0 < speed) (hw : 0 ≤ w)
    (hL : ∀ o ∈ L, o.x = 1280 ∧ o.w = w) :
    (∀ n : ℕ, n ≤ Nat.floor ((1280 + w) / speed) →
      scrollRun speed py (L, sc0) n =
        (L.map (fun o => { o with x := 1280 - (n : ℚ) * speed }), sc0)) ∧
    scrollRun speed py (L, sc0) (Nat.floor ((1280 + w) / speed) + 1) =
      ([], sc0 + L.length) := by
  have hq : (0 : ℚ) ≤ (1280 + w) / speed := by positivity
  have hclosed : ∀ n : ℕ, n ≤ Nat.floor ((1280 + w) / speed) →
      scrollRun speed py (L, sc0) n =
        (L.map (fun o => { o with x := 1280 - (n : ℚ) * speed }), sc0) := by
    intro n hn
    induction n with
    | zero =>
        simp only [scrollRun, Nat.cast_zero, zero_mul, sub_zero]
        congr 1
        have : ∀ o ∈ L, (fun o => { o with x := (1280 : ℚ) }) o = id o := by
          intro o ho
          obtain ⟨h1, _⟩ := hL o ho
          cases o
          simp_all
        rw [List.map_congr_left this, List.map_id]
    | succ n ih =>
        have hn' : n ≤ Nat.floor ((1280 + w) / speed) := Nat.le_of_succ_le hn
        have hmul : ((n : ℚ) + 1) * speed ≤ 1280 + w := by
          have h1 : ((n + 1 : ℕ) : ℚ) ≤ (1280 + w) / speed :=
            (Nat.le_floor_iff hq).mp hn
          rw [le_div_iff₀ hs] at h1
          push_cast at h1
          linarith
        simp only [scrollRun, ih hn', scrollStep]
        have hnone : ∀ o' ∈ L.map (fun o => { o with x := 1280 - (n : ℚ) * speed }),
            ¬ o'.x - speed + o'.w < 0 := by
          intro o' ho'
          obtain ⟨o, ho, rfl⟩ := List.mem_map.mp ho'
          obtain ⟨_, h2⟩ := hL o ho
          simp only
          rw [h2]
          push_neg
          linarith
        obtain ⟨hk, hr⟩ := obsPass_keep speed py _ hnone
        rw [hk, hr]
        simp only [List.map_map, add_zero]
        congr 1
        apply List.map_congr_left
        intro o _
        simp only [Function.comp_apply]
        congr 1
        push_cast
        ring
  refine ⟨hclosed, ?_⟩
  have hM := hclosed (Nat.floor ((1280 + w) / speed)) le_rfl
  have hlt : 1280 + w < ((Nat.floor ((1280 + w) / speed) : ℚ) + 1) * speed := by
    have h1 : (1280 + w) / speed < (Nat.floor ((1280 + w) / speed) : ℚ) + 1 :=
      Nat.lt_floor_add_one _
    rw [div_lt_iff₀ hs] at h1
    linarith
  simp only [scrollRun, hM, scrollStep]
  have hall : ∀ o' ∈ L.map
      (fun o => { o with x := 1280 - (Nat.floor ((1280 + w) / speed) : ℚ) * speed }),
      o'.x - speed + o'.w < 0 := by
    intro o' ho'
    obtain ⟨o, ho, rfl⟩ := List.mem_map.mp ho'
    obtain ⟨_, h2⟩ := hL o ho
    simp only
    rw [h2]
    linarith
  obtain ⟨hk, hr⟩ := obsPass_removeAll speed py _ hall
  rw [hk, hr]
  simp

/-- The collision flag of an obstacle pass is set exactly when some obstacle,
after moving, overlaps the avatar hitbox. -/
theorem obsPass_collided_iff (speed py : ℚ) (L : List Obstacle) :
    (obsPass speed py L).collided = true ↔
      ∃ o ∈ L, collides py { o with x := o.x - speed } = true := by
  induction L with
  | nil => simp [obsPass]
  | cons o rest ih =>
      simp only [obsPass]
      split_ifs with h1 <;>
        · simp only [Bool.or_eq_true, ih, List.mem_cons]
          constructor
          · rintro (hc | ⟨o', ho', hc⟩)
            · exact ⟨o, Or.inl rfl, hc⟩
            · exact ⟨o', Or.inr ho', hc⟩
          · rintro ⟨o', rfl | ho', hc⟩
            · exact Or.inl hc
            · exact Or.inr ⟨o', ho', hc⟩

/-! ## Claim theorems -/

/-- Claim C2: for every sequence of per-frame physics updates while Playing,
after each update the avatar's vertical position lies in
`[0, fieldHeight − avatarSize] = [0, 720 − 60]` and its vertical velocity
lies in `[-15, 15]`, for any gravity and lift constants and any per-frame
intensities. -/
theorem C2_avatar_bounds (g l : ℚ) (s0 : AvatarState) (is : List ℚ) :
    ∀ s' ∈ physicsTrace g l s0 is,
      0 ≤ s'.y ∧ s'.y ≤ 720 - 60 ∧ -15 ≤ s'.v ∧ s'.v ≤ 15 := by
  induction is generalizing s0 with
  | nil => intro s' h; simp [physicsTrace] at h
  | cons i is ih =>
      intro s' h
      simp only [physicsTrace, List.mem_cons] at h
      rcases h with rfl | h
      · exact physicsStep_bounds g l i s0
      · exact ih _ _ h

/-- Witness for C2: a concrete Medium-difficulty update from field center at
full intensity lands at position 358.7 with velocity −1.3, inside bounds. -/
theorem C2_avatar_bounds_witness :
    0 ≤ (AvatarState.mk (3587/10) (-13/10)).y ∧
    (AvatarState.mk (3587/10) (-13/10)).y ≤ 720 - 60 ∧
    -15 ≤ (AvatarState.mk (3587/10) (-13/10)).v ∧
    (AvatarState.mk (3587/10) (-13/10)).v ≤ 15 :=
  C2_avatar_bounds 0.5 1.8 ⟨360, 0⟩ [1] ⟨3587/10, -13/10⟩
    (by norm_num [physicsTrace, physicsStep, min_def, max_def])

/-- Claim C7: the smoother returns exactly `prev * 0.8 + raw * 0.2`, and when
both arguments lie in `[0,1]` so does the result. -/
theorem C7_smoothing (prev raw : ℚ) :
    smooth prev raw = prev * 0.8 + raw * 0.2 ∧
    (0 ≤ prev → prev ≤ 1 → 0 ≤ raw → raw ≤ 1 →
      0 ≤ smooth prev raw ∧ smooth prev raw ≤ 1) := by
  refine ⟨rfl, fun h0 h1 h2 h3 => ⟨?_, ?_⟩⟩ <;> unfold smooth <;> nlinarith

/-- Witness for C7: smoothing 0.5 with a raw sample of 1 stays in `[0,1]`. -/
theorem C7_smoothing_witness :
    0 ≤ smooth 0.5 1 ∧ smooth 0.5 1 ≤ 1 :=
  (C7_smoothing 0.5 1).2 (by norm_num) (by norm_num) (by norm_num) (by norm_num)

/-- Claim C8: for the normalize primitive with `vmin < vmax`: any value
`≤ vmin` (non-inverse) gives 0, any value `≥ vmax` (non-inverse) gives 1, and
the inverse flag returns exactly one minus the non-inverse result. -/
theorem C8_normalize_primitive (v vmin vmax : ℚ) (h : vmin < vmax) :
    (v ≤ vmin → normalize v vmin vmax false = 0) ∧
    (vmax ≤ v → normalize v vmin vmax false = 1) ∧
    normalize v vmin vmax true = 1 - normalize v vmin vmax false := by
  have hd : (0 : ℚ) < vmax - vmin := sub_pos.mpr h
  refine ⟨fun hv => ?_, fun hv => ?_, by simp [normalize]⟩
  · have hq : (v - vmin) / (vmax - vmin) ≤ 0 :=
      div_nonpos_iff.mpr (Or.inr ⟨sub_nonpos.mpr hv, hd.le⟩)
    simp only [normalize, Bool.false_eq_true, if_false]
    rw [min_eq_right (hq.trans zero_le_one), max_eq_left hq]
  · have hq : (1 : ℚ) ≤ (v - vmin) / (vmax - vmin) :=
      (one_le_div hd).mpr (sub_le_sub_right hv vmin)
    simp only [normalize, Bool.false_eq_true, if_false]
    rw [min_eq_left hq, max_eq_right zero_le_one]

/-- Witness for C8: the squat reference range `[70, 160]` at values 50
(below), 200 (above), and 90 (inverse identity). -/
theorem C8_normalize_primitive_witness :
    normalize (50 : ℚ) 70 160 false = 0 ∧ normalize (200 : ℚ) 70 160 false = 1 ∧
    normalize (90 : ℚ) 70 160 true = 1 - normalize (90 : ℚ) 70 160 false :=
  ⟨(C8_normalize_primitive 50 70 160 (by norm_num)).1 (by norm_num),
   (C8_normalize_primitive 200 70 160 (by norm_num)).2.1 (by norm_num),
   (C8_normalize_primitive 90 70 160 (by norm_num)).2.2⟩

/-- Claim C3: for every stream of smoothed-intensity frames, the exertion
event (jump cue) fires on a frame exactly when the smoothed intensity exceeds
0.6 while the latch is false; the latch is then up on the next frame, and no
second event can fire until some strictly intermediate frame's smoothed
intensity drops below 0.4 — at most one event per upward ramp. -/
theorem C3_hysteresis (i : ℕ → ℚ) (l0 : Bool) :
    (∀ n, firedAt i l0 n = true ↔ (i n > 0.6 ∧ latchAt i l0 n = false)) ∧
    (∀ n, firedAt i l0 n = true → latchAt i l0 (n + 1) = true) ∧
    (∀ j k, j < k → firedAt i l0 j = true → firedAt i l0 k = true →
      ∃ m, j < m ∧ m < k ∧ i m < 0.4) := by
  refine ⟨firedAt_iff i l0, latchAt_succ_of_fired i l0, fun j k hjk hj hk => ?_⟩
  by_contra hcon
  push_neg at hcon
  have hlatch : latchAt i l0 k = true :=
    latchAt_persist i l0 (j + 1) k hjk (latchAt_succ_of_fired i l0 j hj)
      (fun m hm1 hm2 => not_lt.mpr (hcon m (Nat.lt_of_succ_le hm1) hm2))
  have hfalse := ((firedAt_iff i l0 k).mp hk).2
  rw [hlatch] at hfalse
  simp at hfalse

/-- Witness for C3: a ramp whose first frame has smoothed intensity 1 fires
the exertion event on frame 0. -/
theorem C3_hysteresis_witness :
    firedAt (fun n => if n = 0 then 1 else 0) false 0 = true :=
  ((C3_hysteresis (fun n => if n = 0 then 1 else 0) false).1 0).mpr
    ⟨by norm_num, rfl⟩

/-- Evaluation of the atan2 model along the positive x-axis. -/
theorem atan2_zero_one : atan2 0 1 = 0 := by
  norm_num [atan2, Real.arctan_zero]

/-- Evaluation of the atan2 model along the positive y-axis. -/
theorem atan2_one_zero : atan2 1 0 = Real.pi / 2 := by
  norm_num [atan2]

/-- Evaluation of the atan2 model along the negative x-axis. -/
theorem atan2_zero_neg_one : atan2 0 (-1) = Real.pi := by
  norm_num [atan2, Real.arctan_zero]

/-- The hip-knee-ankle angle of the concrete pose `squatPose90` is 90°. -/
theorem calculateAngle_squatPose90 :
    calculateAngle (squatPose90 23) (squatPose90 25) (squatPose90 27) = 90 := by
  have h23 : squatPose90 23 = ⟨0, 1, 1⟩ := by norm_num [squatPose90]
  have h25 : squatPose90 25 = ⟨0, 0, 1⟩ := by norm_num [squatPose90]
  have h27 : squatPose90 27 = ⟨1, 0, 1⟩ := by norm_num [squatPose90]
  rw [h23, h25, h27]
  simp only [calculateAngle]
  norm_num [atan2_zero_one, atan2_one_zero]
  have habs : |-(Real.pi / 2 * 180) / Real.pi| = 90 := by
    have h1 : -(Real.pi / 2 * 180) / Real.pi = -90 := by
      field_simp
      ring
    rw [h1, abs_of_neg (by norm_num : (-90 : ℝ) < 0)]
    norm_num
  rw [habs]
  norm_num

/-- The hip-knee-ankle angle of the concrete pose `squatPoseLowVis` is 180°
(a fully extended leg). -/
theorem calculateAngle_squatPoseLowVis :
    calculateAngle (squatPoseLowVis 23) (squatPoseLowVis 25) (squatPoseLowVis 27) = 180 := by
  have h23 : squatPoseLowVis 23 = ⟨1, 0, 0⟩ := by norm_num [squatPoseLowVis]
  have h25 : squatPoseLowVis 25 = ⟨0, 0, 0⟩ := by norm_num [squatPoseLowVis]
  have h27 : squatPoseLowVis 27 = ⟨-1, 0, 0⟩ := by norm_num [squatPoseLowVis]
  rw [h23, h25, h27]
  simp only [calculateAngle]
  norm_num [atan2_zero_one, atan2_zero_neg_one]
  have habs : |Real.pi * 180 / Real.pi| = 180 := by
    have h1 : Real.pi * 180 / Real.pi = 180 := by
      field_simp
    rw [h1, abs_of_pos (by norm_num : (0 : ℝ) < 180)]
  rw [habs]
  norm_num

/-- Claim C1 (recording the code bug): for a pose whose hip-knee-ankle angle
is exactly 90°, the code's squat mapping — `normalize(angle, 160, 70, true)`,
a doubly-inverted call — produces raw intensity 2/9 ≈ 0.222, while the
mapping the claim states, `normalize(angle, 70, 160, true)`, produces
7/9 ≈ 0.778; the two never agree at this pose. -/
theorem C1_squat_90_eval :
    calculateAngle (squatPose90 23) (squatPose90 25) (squatPose90 27) = 90 ∧
    poseIntensity GameMode.SQUAT squatPose90 = 2 / 9 ∧
    normalize (90 : ℝ) 70 160 true = 7 / 9 ∧
    (2 : ℝ) / 9 ≠ 7 / 9 := by
  refine ⟨calculateAngle_squatPose90, ?_, ?_, by norm_num⟩
  · show normalize (calculateAngle (squatPose90 23) (squatPose90 25) (squatPose90 27))
      160 70 true = 2 / 9
    rw [calculateAngle_squatPose90]
    norm_num [normalize, min_def, max_def]
  · norm_num [normalize, min_def, max_def]

/-- Claim C6 counterexample: in Squat mode, a pose whose hip, knee and ankle
landmarks all carry visibility 0 (below the 0.5 threshold) still produces raw
intensity 1, not 0 — the interpreter never consults visibility. -/
theorem C6_low_visibility_counterexample :
    (squatPoseLowVis 23).visibility < 0.5 ∧
    (squatPoseLowVis 25).visibility < 0.5 ∧
    (squatPoseLowVis 27).visibility < 0.5 ∧
    poseIntensity GameMode.SQUAT squatPoseLowVis = 1 ∧
    (1 : ℝ) ≠ 0 := by
  refine ⟨by norm_num [squatPoseLowVis], by norm_num [squatPoseLowVis],
          by norm_num [squatPoseLowVis], ?_, by norm_num⟩
  show normalize (calculateAngle (squatPoseLowVis 23) (squatPoseLowVis 25)
    (squatPoseLowVis 27)) 160 70 true = 1
  rw [calculateAngle_squatPoseLowVis]
  norm_num [normalize, min_def, max_def]

/-- Claim C6 amended: in every exercise mode the interpreter never consults
landmark visibility — replacing all visibility confidences leaves the raw
intensity unchanged, so low-confidence landmarks do not zero the frame — and
a frame with no detected landmarks yields raw intensity 0. -/
theorem C6_visibility_ignored (mode : GameMode) (landmarks : ℕ → Point)
    (v : ℕ → ℝ) :
    poseIntensity mode (withVisibility landmarks v) = poseIntensity mode landmarks ∧
    rawIntensity mode none = 0 := by
  refine ⟨?_, rfl⟩
  cases mode <;> rfl

/-- Claim C4 counterexample: for the pillar of width 60 scrolling at the
constant speed 10, the claimed removal frame is
`ceil((1280 + 60)/10) = 134`, yet after 134 frames the obstacle is still
live (its trailing edge sits exactly on the left boundary, and removal
requires `x + w < 0` strictly) and the score is still 0; removal and the
score increment happen on frame 135. -/
theorem C4_ceil_counterexample :
    Nat.ceil ((1280 + 60 : ℚ) / 10) = 134 ∧
    scrollRun 10 0 ([⟨1280, 620, 60, 100, ObstacleType.block, "#F72585"⟩], 0) 134 =
      ([⟨-60, 620, 60, 100, ObstacleType.block, "#F72585"⟩], 0) ∧
    scrollRun 10 0 ([⟨1280, 620, 60, 100, ObstacleType.block, "#F72585"⟩], 0) 135 =
      ([], 1) := by
  have hceil : ((1280 + 60 : ℚ) / 10) = ((134 : ℕ) : ℚ) := by norm_num
  have hfloor : Nat.floor ((1280 + 60 : ℚ) / 10) = 134 := by
    rw [hceil, Nat.floor_natCast]
  have hu := scrollRun_uniform 10 0 60
    [⟨1280, 620, 60, 100, ObstacleType.block, "#F72585"⟩] 0
    (by norm_num) (by norm_num)
    (by intro o ho; simp only [List.mem_singleton] at ho; subst ho; exact ⟨rfl, rfl⟩)
  refine ⟨by rw [hceil, Nat.ceil_natCast], ?_, ?_⟩
  · have h134 := hu.1 134 (by rw [hfloor])
    rw [h134]
    norm_num
  · have h135 := hu.2
    rw [hfloor] at h135
    simpa using h135

/-- Claim C4 amended: an obstacle of width `w ≥ 0` spawned at `x = 1280`
scrolling at a constant speed `s > 0` is removed after exactly
`⌊(1280 + w)/s⌋ + 1` frames — the first frame on which `n·s` strictly
exceeds `1280 + w` — with the score increasing by exactly 1 on that frame
and staying unchanged on every earlier frame. -/
theorem C4_obstacle_lifecycle (y h w speed py : ℚ) (t : ObstacleType)
    (c : String) (sc0 : ℕ) (hw : 0 ≤ w) (hs : 0 < speed) :
    (∀ n : ℕ, n < Nat.floor ((1280 + w) / speed) + 1 →
      scrollRun speed py ([⟨1280, y, w, h, t, c⟩], sc0) n =
        ([⟨1280 - (n : ℚ) * speed, y, w, h, t, c⟩], sc0)) ∧
    scrollRun speed py ([⟨1280, y, w, h, t, c⟩], sc0)
        (Nat.floor ((1280 + w) / speed) + 1) = ([], sc0 + 1) := by
  have hu := scrollRun_uniform speed py w [⟨1280, y, w, h, t, c⟩] sc0 hs hw
    (by intro o ho; simp only [List.mem_singleton] at ho; subst ho; exact ⟨rfl, rfl⟩)
  refine ⟨fun n hn => ?_, by simpa using hu.2⟩
  have := hu.1 n (Nat.lt_succ_iff.mp hn)
  simpa using this

/-- Witness for C4: the width-60 pillar at speed 10 is removed on frame
`⌊1340/10⌋ + 1 = 135` with the score moving from 0 to 1. -/
theorem C4_obstacle_lifecycle_witness :
    scrollRun 10 0 ([⟨1280, 620, 60, 100, ObstacleType.block, "#F72585"⟩], 0) 135 =
      ([], 0 + 1) := by
  have hfloor : Nat.floor ((1280 + 60 : ℚ) / 10) = 134 := by
    rw [show ((1280 + 60 : ℚ) / 10) = ((134 : ℕ) : ℚ) by norm_num, Nat.floor_natCast]
  have h := (C4_obstacle_lifecycle 620 100 60 10 0 ObstacleType.block "#F72585" 0
    (by norm_num) (by norm_num)).2
  rw [hfloor] at h
  exact h

/-- Claim C9: a Gate spawn event (score ≥ 10, archetype draw above 0.6)
appends exactly two obstacle rectangles, and — scrolling at any constant
speed `s > 0` — both rectangles are scored independently on exit, so the
score rises by exactly 2 (on frame `⌊(1280 + 60)/s⌋ + 1`, when both
60-wide pillars pass the left edge together), not by 1. -/
theorem C9_gate_scores_two (d : Difficulty) (rand r1 r2 speed py : ℚ)
    (sc : ℕ) (hadv : 10 ≤ sc) (hrand : rand > 0.6) (hs : 0 < speed) :
    (spawnObstacles sc d rand r1 r2).length = 2 ∧
    scrollRun speed py (spawnObstacles sc d rand r1 r2, sc)
      (Nat.floor ((1280 + 60) / speed) + 1) = ([], sc + 2) := by
  have hgate : spawnObstacles sc d rand r1 r2 =
      [⟨1280, 0, 60, r1 * (720 - gapSize d - 100) + 50, ObstacleType.block, "#7209B7"⟩,
       ⟨1280, r1 * (720 - gapSize d - 100) + 50 + gapSize d, 60,
        720 - (r1 * (720 - gapSize d - 100) + 50 + gapSize d),
        ObstacleType.block, "#7209B7"⟩] := by
    simp [spawnObstacles, hadv, hrand]
  have hu := scrollRun_uniform speed py 60 (spawnObstacles sc d rand r1 r2) sc hs
    (by norm_num)
    (by
      intro o ho
      rw [hgate] at ho
      simp only [List.mem_cons, List.mem_singleton] at ho
      rcases ho with rfl | rfl | h
      · exact ⟨rfl, rfl⟩
      · exact ⟨rfl, rfl⟩
      · simp at h)
  refine ⟨by rw [hgate]; rfl, ?_⟩
  have h2 := hu.2
  rw [hgate] at h2 ⊢
  simpa using h2

/-- Witness for C9: a Medium gate spawned at score 10 with archetype draw
0.7, scrolled at constant speed 10, holds two rectangles and lifts the score
to 12 on frame 135. -/
theorem C9_gate_scores_two_witness :
    (spawnObstacles 10 Difficulty.MEDIUM 0.7 0.5 0.5).length = 2 ∧
    scrollRun 10 0 (spawnObstacles 10 Difficulty.MEDIUM 0.7 0.5 0.5, 10) 135 =
      ([], 12) := by
  have h := C9_gate_scores_two Difficulty.MEDIUM 0.7 0.5 0.5 10 0 10
    le_rfl (by norm_num) (by norm_num)
  have hfloor : Nat.floor ((1280 + 60 : ℚ) / 10) = 134 := by
    rw [show ((1280 + 60 : ℚ) / 10) = ((134 : ℕ) : ℚ) by norm_num, Nat.floor_natCast]
  rw [hfloor] at h
  exact ⟨h.1, h.2⟩

/-- Claim C5: on any Playing frame in which the avatar hitbox overlaps some
live obstacle's rectangle (at that frame's position), the game state
transitions from Playing to GameOver, a gameover cue is among the frame's
requested cues, and the high score becomes `max(old HighScore, Score)`. -/
theorem C5_collision_game_over (intensity rand r1 r2 : ℚ) (burst : List Sparkle)
    (s : EngineState) (hplay : s.gameState = GState.PLAYING)
    (hcol : ∃ o ∈ obstaclesAfterSpawn rand r1 r2 s,
      collides (avatarAfter intensity s).y
        { o with x := o.x - speedAfterSpawn s } = true) :
    (updateGame intensity rand r1 r2 burst s).gameState = GState.GAME_OVER ∧
    Cue.gameover ∈ frameCues
      (obsPass (speedAfterSpawn s) (avatarAfter intensity s).y
        (obstaclesAfterSpawn rand r1 r2 s)).collided
      s.score
      (obsPass (speedAfterSpawn s) (avatarAfter intensity s).y
        (obstaclesAfterSpawn rand r1 r2 s)).removedCount ∧
    (updateGame intensity rand r1 r2 burst s).highScore = max s.highScore s.score := by
  have hc : (obsPass (speedAfterSpawn s) (avatarAfter intensity s).y
      (obstaclesAfterSpawn rand r1 r2 s)).collided = true :=
    (obsPass_collided_iff _ _ _).mpr hcol
  refine ⟨?_, ?_, ?_⟩
  · simp only [updateGame, if_pos hplay]
    simp [hc]
  · simp [frameCues, hc]
  · simp only [updateGame, if_pos hplay]
    simp only [hc, true_and]
    by_cases hgt : s.score > s.highScore
    · simp only [if_pos hgt]
      exact (max_eq_right hgt.le).symm
    · simp only [if_neg hgt]
      exact (max_eq_left (not_lt.mp hgt)).symm

/-- Witness for C5: a Medium Playing frame with the avatar at field center and
a full-height pillar straddling the avatar's column ends the run and lifts
the high score from 3 to `max 3 5 = 5`. -/
theorem C5_collision_game_over_witness :
    (updateGame 0 0 0 0 []
      (EngineState.mk 5 3 360 0 [⟨210, 0, 60, 720, ObstacleType.block, "#F72585"⟩]
        [] 6 1 GState.PLAYING Difficulty.MEDIUM)).gameState = GState.GAME_OVER ∧
    (updateGame 0 0 0 0 []
      (EngineState.mk 5 3 360 0 [⟨210, 0, 60, 720, ObstacleType.block, "#F72585"⟩]
        [] 6 1 GState.PLAYING Difficulty.MEDIUM)).highScore = 5 := by
  have h := C5_collision_game_over 0 0 0 0 []
    (EngineState.mk 5 3 360 0 [⟨210, 0, 60, 720, ObstacleType.block, "#F72585"⟩]
      [] 6 1 GState.PLAYING Difficulty.MEDIUM) rfl ?_
  · exact ⟨h.1, h.2.2.trans (by simp)⟩
  · refine ⟨⟨210, 0, 60, 720, ObstacleType.block, "#F72585"⟩, ?_, ?_⟩
    · norm_num [obstaclesAfterSpawn, spawnFires, spawnRate]
    · norm_num [collides, avatarAfter, physicsStep, speedAfterSpawn, spawnFires,
        spawnRate, speedIncrement, gravity, liftMultiplier, min_def, max_def]

/-- Claim C10: the Playing-entry reset changes only the score, avatar
position and velocity, the obstacle and sparkle collections, the scroll
speed (and the game state itself, entering Playing); it leaves the high
score, the frame counter and the difficulty unchanged; the frame counter
increments on every frame in every game state; and for every offset
`k < spawnPeriod` there is a frame-counter value from which the first spawn
of the new run occurs exactly `k` frames after Playing begins. -/
theorem C10_start_reset_and_spawn_offset (intensity rand r1 r2 : ℚ)
    (burst : List Sparkle) (s : EngineState) (k : ℕ) :
    (startGame s).score = 0 ∧
    (startGame s).playerY = 720 / 2 ∧
    (startGame s).playerVelocity = 0 ∧
    (startGame s).obstacles = [] ∧
    (startGame s).sparkles = [] ∧
    (startGame s).gameSpeed = initialSpeed s.difficulty ∧
    (startGame s).gameState = GState.PLAYING ∧
    (startGame s).highScore = s.highScore ∧
    (startGame s).frame = s.frame ∧
    (startGame s).difficulty = s.difficulty ∧
    (updateGame intensity rand r1 r2 burst s).frame = s.frame + 1 ∧
    (k < spawnRate s.difficulty →
      ∃ f : ℕ, spawnFires s.difficulty (f + k) = true ∧
        ∀ j, j < k → spawnFires s.difficulty (f + j) = false) := by
  refine ⟨rfl, rfl, rfl, rfl, rfl, rfl, rfl, rfl, rfl, rfl, ?_, fun hk => ?_⟩
  · unfold updateGame
    split <;> rfl
  · refine ⟨spawnRate s.difficulty - k, ?_, fun j hj => ?_⟩
    · simp [spawnFires, Nat.sub_add_cancel hk.le, Nat.mod_self]
    · have h1 : spawnRate s.difficulty - k + j < spawnRate s.difficulty := by omega
      simp only [spawnFires, Nat.mod_eq_of_lt h1, beq_eq_false_iff_ne, ne_eq]
      omega

/-- Witness for C10: with Medium difficulty (spawn period 100) there is a
frame-counter value from which the first spawn lands exactly 7 frames into
the new run. -/
theorem C10_start_reset_and_spawn_offset_witness :
    ∃ f : ℕ, spawnFires Difficulty.MEDIUM (f + 7) = true ∧
      ∀ j, j < 7 → spawnFires Difficulty.MEDIUM (f + j) = false :=
  (C10_start_reset_and_spawn_offset 0 0 0 0 []
    (EngineState.mk 0 0 360 0 [] [] 6 0 GState.TUTORIAL Difficulty.MEDIUM)
    7).2.2.2.2.2.2.2.2.2.2.2 (by decide)

end PhysioGamer
